import Mathlib

/-!
Verification of the temporal allocation and rollup engine of the proforma
builder (`src/app/page.tsx`).

Embedding conventions:

* JS `Date` objects are only ever created at noon local time, so each one
  denotes a single calendar day; day-count arithmetic
  (`Math.round((end - start) / msPerDay)`) is exact at noon.  We therefore
  embed a date as its proleptic-Gregorian day number (an `Int`), and `Date`
  comparisons become `Int` comparisons of day numbers.
* JS `number` arithmetic on currency amounts is embedded as exact rational
  (`ℚ`) arithmetic, matching the spec's "under exact arithmetic" reading.
* A date input string is embedded as `DateStr`: either `malformed` (the
  empty string, or any string whose split on "-" does not produce three
  numeric components) or `ymd y m d` (three numeric components).  A split
  segment never contains a "-", so the components are never negative.
-/

namespace Proforma

/-- Leap-year predicate of the (proleptic) Gregorian calendar used by JS
`Date`.  `Int.emod` is nonnegative on nonnegative divisors, so the rule is
also right for negative years. -/
def isLeap (y : Int) : Bool :=
  (y % 4 == 0 && y % 100 != 0) || (y % 400 == 0)

/-- Number of days of civil month `m` (1..12) of year `y`, as produced by
`new Date(y, m, 0).getDate()` in the source. -/
def daysInMonth (y m : Int) : Int :=
  if m = 2 then (if isLeap y then 29 else 28)
  else if m = 4 ∨ m = 6 ∨ m = 9 ∨ m = 11 then 30
  else 31

/-- Days of year `y` that precede civil month `m` (1..12). -/
def daysBeforeMonth (y m : Int) : Int :=
  let f : Int := if isLeap y then 1 else 0
  if m = 1 then 0
  else if m = 2 then 31
  else if m = 3 then 59 + f
  else if m = 4 then 90 + f
  else if m = 5 then 120 + f
  else if m = 6 then 151 + f
  else if m = 7 then 181 + f
  else if m = 8 then 212 + f
  else if m = 9 then 243 + f
  else if m = 10 then 273 + f
  else if m = 11 then 304 + f
  else if m = 12 then 334 + f
  else 0

/-- Number of Gregorian leap years strictly before year `y` (counted from
year 1; an affine shift of any other epoch).  `Int.fdiv` is floor division,
correct for negative years as well. -/
def leapsBefore (y : Int) : Int :=
  (y - 1).fdiv 4 - (y - 1).fdiv 100 + (y - 1).fdiv 400

/-- A calendar date, as carried by a JS `Date` normalized to noon:
year, civil month (1..12) and day of month. -/
structure CivilDate where
  y : Int
  m : Int
  d : Int
deriving DecidableEq, Repr

/-- Day number of a civil date on the proleptic-Gregorian timeline.  Two
noon-normalized JS `Date`s compare (`<`, `>`) and subtract (in rounded
whole days) exactly as their day numbers do. -/
def dayNumber (c : CivilDate) : Int :=
  365 * (c.y - 1) + leapsBefore c.y + daysBeforeMonth c.y c.m + (c.d - 1)

/-- A date input string, pre-split on "-": `malformed` stands for any
string without three numeric components (`Number(segment)` is `NaN` for at
least one of the first three segments, or the string is empty), `ymd`
carries the three numeric components.  Segments of a split never contain
"-", hence are never negative. -/
inductive DateStr where
  | malformed : DateStr
  | ymd : Int → Int → Int → DateStr
deriving DecidableEq, Repr

/-- Embedding of `parseDateInput` (`page.tsx` lines 34-42).  The source
rejects falsy components (`!y || !m || !d`, i.e. `0` or `NaN`; negative
components cannot arise from a split string), then round-trips through
`new Date(y, m - 1, d)` and rejects any input that does not reproduce the
same year/month/day.  The round trip fails exactly when the month or day
is out of range (JS rolls the date over) or when `0 ≤ y ≤ 99` (the JS
`Date` constructor maps years 0..99 to 1900+y, so `getFullYear()` differs
from `y`). -/
def parseDateInput : DateStr → Option CivilDate
  | DateStr.malformed => none
  | DateStr.ymd y m d =>
    if y ≤ 0 ∨ m ≤ 0 ∨ d ≤ 0 then none
    else if 100 ≤ y ∧ m ≤ 12 ∧ d ≤ daysInMonth y m then some ⟨y, m, d⟩
    else none

/-- Embedding of `toISODateInput` (`page.tsx` lines 27-32).  Month and day
are zero-padded to two digits, which does not change their numeric value;
the year is interpolated as-is, so a negative year contributes a leading
"-" and the resulting string splits into four segments whose first is
empty — such a string never parses, which we collapse to `malformed`. -/
def toISODateInput (c : CivilDate) : DateStr :=
  if c.y < 0 then DateStr.malformed else DateStr.ymd c.y c.m c.d

/-- A month bucket (`MonthBucket` in the source): 0-based month index and
inclusive `start`/`end` dates as day numbers.  The display-only `label`
and `key` fields are omitted.  `endD` embeds the source's `end`. -/
structure MonthBucket where
  monthIndex : Nat
  start : Int
  endD : Int
deriving DecidableEq, Repr

/-- The civil year actually constructed by `new Date(y, month, day)`:
the JS `Date` constructor maps a year argument in 0..99 to 1900+year;
all other integer years are taken as-is. -/
def jsYear (y : Int) : Int :=
  if 0 ≤ y ∧ y ≤ 99 then 1900 + y else y

/-- Embedding of `buildMonthsForYear` (`page.tsx` lines 85-100): bucket
`m` (0-based) runs from the first day of civil month `m+1` through
`new Date(year, m + 1, 0)`, the last day of that month.  Both bounds are
built with the `Date` constructor, so they live in `jsYear year` (for a
year argument in 0..99 the program's buckets lie in 1900+year). -/
def buildMonthsForYear (year : Int) : List MonthBucket :=
  (List.range 12).map fun m =>
    { monthIndex := m
      start := dayNumber ⟨jsYear year, (m : Int) + 1, 1⟩
      endD := dayNumber ⟨jsYear year, (m : Int) + 1, daysInMonth (jsYear year) ((m : Int) + 1)⟩ }

/-- A project (`Project` in the source); rates are exact rationals. -/
structure Project where
  id : String
  name : String
  startDate : DateStr
  endDate : DateStr
  weeklyRevenue : ℚ
  weeklyCost : ℚ
  weeklyAdjustments : ℚ
deriving DecidableEq, Repr

/-- Embedding of `clampProjectDatesToYear` (`page.tsx` lines 102-120).
`??` becomes `Option.getD`; `Date` comparisons become day-number
comparisons.  `yearStart`/`yearEnd` are built with the `Date`
constructor, hence live in `jsYear year` (a target year in 0..99 clamps
into 1900+year). -/
def clampProjectDatesToYear (p : Project) (year : Int) : Project :=
  let yearStart : CivilDate := ⟨jsYear year, 1, 1⟩
  let yearEnd : CivilDate := ⟨jsYear year, 12, 31⟩
  let ps := (parseDateInput p.startDate).getD yearStart
  let pe := (parseDateInput p.endDate).getD yearEnd
  let clampedStart :=
    if dayNumber ps < dayNumber yearStart then yearStart
    else if dayNumber ps > dayNumber yearEnd then yearEnd
    else ps
  let clampedEnd :=
    if dayNumber pe < dayNumber yearStart then yearStart
    else if dayNumber pe > dayNumber yearEnd then yearEnd
    else pe
  let finalStart := clampedStart
  let finalEnd := if dayNumber clampedEnd < dayNumber finalStart then finalStart else clampedEnd
  { p with startDate := toISODateInput finalStart, endDate := toISODateInput finalEnd }

/-- An amount tuple (`Amounts` in the source). -/
@[ext] structure Amounts where
  revenue : ℚ
  cost : ℚ
  adjustments : ℚ
  margin : ℚ
deriving DecidableEq, Repr

/-- The zero `Amounts` literal `{revenue: 0, cost: 0, adjustments: 0, margin: 0}`. -/
def zeroAmounts : Amounts := ⟨0, 0, 0, 0⟩

/-- Embedding of `addAmounts` (`page.tsx` lines 129-136). -/
def addAmounts (a b : Amounts) : Amounts :=
  { revenue := a.revenue + b.revenue
    cost := a.cost + b.cost
    adjustments := a.adjustments + b.adjustments
    margin := a.margin + b.margin }

/-- Embedding of `amountsFromWeekly` (`page.tsx` lines 138-144). -/
def amountsFromWeekly (weeklyRevenue weeklyCost weeklyAdjustments factorWeeks : ℚ) : Amounts :=
  let revenue := weeklyRevenue * factorWeeks
  let cost := weeklyCost * factorWeeks
  let adjustments := weeklyAdjustments * factorWeeks
  let margin := revenue - cost + adjustments
  { revenue := revenue, cost := cost, adjustments := adjustments, margin := margin }

/-- Embedding of `marginPct` (`page.tsx` lines 146-149); a rational is
always finite, so the `Number.isFinite` guard is vacuous here. -/
def marginPct (revenue margin : ℚ) : Option ℚ :=
  if revenue ≤ 0 then none else some (margin / revenue)

/-- Embedding of `computeWeeklyMargin` (`page.tsx` lines 67-69). -/
def computeWeeklyMargin (p : Project) : ℚ :=
  p.weeklyRevenue - p.weeklyCost + p.weeklyAdjustments

/-- Embedding of `overlapDaysInclusive` (`page.tsx` lines 74-83): the
ternaries computing the later start and earlier end, the empty check, and
the rounded whole-day difference plus one (exact on day numbers). -/
def overlapDaysInclusive (aStart aEnd bStart bEnd : Int) : Int :=
  let start := if aStart > bStart then aStart else bStart
  let endV := if aEnd < bEnd then aEnd else bEnd
  if start > endV then 0
  else (endV - start) + 1

/-- Loop body of the `byMonth` map in `projectMonthGrid` (`page.tsx`
lines 225-231), for a project whose two dates parsed: the day overlap of
the project range with the bucket, the zero short-circuit, and the weekly
proration by `days / 7`. -/
def bucketAmount (s e : Int) (wr wc wa : ℚ) (b : MonthBucket) : Amounts :=
  let days := overlapDaysInclusive s e b.start b.endD
  if days ≤ 0 then zeroAmounts
  else amountsFromWeekly wr wc wa ((days : ℚ) / 7)

/-- One row of the rollup, as produced per project by `projectMonthGrid`. -/
structure Row where
  project : Project
  dateError : Option String
  byMonth : List Amounts
  total : Amounts
  weeklyMargin : ℚ
  weeklyPct : Option ℚ
  projectedPct : Option ℚ
deriving DecidableEq, Repr

/-- Per-project body of `projectMonthGrid` (`page.tsx` lines 214-252):
date parsing, the two-case `dateError`, the per-bucket amounts (zero when
either date failed to parse), the reduced total, and the derived
percentages. -/
def projectRow (months : List MonthBucket) (p : Project) : Row :=
  let ps := parseDateInput p.startDate
  let pe := parseDateInput p.endDate
  let dateError : Option String :=
    match ps, pe with
    | none, _ => some "Start and end dates are required."
    | some _, none => some "Start and end dates are required."
    | some a, some b =>
      if dayNumber a > dayNumber b then some "Start date must be on/before end date." else none
  let byMonth : List Amounts := months.map fun m =>
    match ps, pe with
    | some a, some b => bucketAmount (dayNumber a) (dayNumber b)
        p.weeklyRevenue p.weeklyCost p.weeklyAdjustments m
    | _, _ => zeroAmounts
  let total := byMonth.foldl addAmounts zeroAmounts
  let weeklyMargin := computeWeeklyMargin p
  { project := p
    dateError := dateError
    byMonth := byMonth
    total := total
    weeklyMargin := weeklyMargin
    weeklyPct := marginPct p.weeklyRevenue weeklyMargin
    projectedPct := marginPct total.revenue total.margin }

/-- Embedding of `projectMonthGrid` (`page.tsx` lines 214-252). -/
def projectMonthGrid (months : List MonthBucket) (projects : List Project) : List Row :=
  projects.map (projectRow months)

/-- The portfolio rollup produced by `portfolioByMonth`. -/
structure Portfolio where
  byMonth : List Amounts
  total : Amounts
  projectedPct : Option ℚ
deriving DecidableEq, Repr

/-- Embedding of `portfolioByMonth` (`page.tsx` lines 254-268): for each
month index, the reduce of that bucket's amount across all rows; then the
reduce of those bucket sums into the grand total.  Every row's `byMonth`
has the same length as `months`, so the JS index access `row.byMonth[mi]`
is always in bounds; `List.getD` with the zero default renders it
totally. -/
def portfolioByMonth (months : List MonthBucket) (grid : List Row) : Portfolio :=
  let byMonth := (List.range months.length).map fun mi =>
    grid.foldl (fun acc row => addAmounts acc (row.byMonth.getD mi zeroAmounts)) zeroAmounts
  let total := byMonth.foldl addAmounts zeroAmounts
  { byMonth := byMonth
    total := total
    projectedPct := marginPct total.revenue total.margin }

/-- Number of days of year `y`. -/
def daysInYear (y : Int) : Int := if isLeap y then 366 else 365

/-- A week bucket: 1-based index and inclusive `start`/`end` day numbers. -/
structure WeekBucket where
  index : Nat
  start : Int
  endD : Int
deriving DecidableEq, Repr

/-- Modelled from the spec: `src/` contains only the month-mode bucket
generator (`buildMonthsForYear`); the week-mode generator described in
spec §4.2 is not part of the sources provided.  Per the spec: "bucket 1
starts January 1 and spans 7 days; bucket k+1 starts the day after bucket
k ends. Generation continues while the bucket's start date is on or
before December 31; the final bucket's end may extend past December 31 by
construction (it is not truncated)."  Start dates are `Jan 1 + 7k`, so the
buckets generated are exactly those with `7k ≤ daysInYear - 1`, i.e.
`(daysInYear - 1) / 7 + 1` of them. -/
def buildWeeksForYear (year : Int) : List WeekBucket :=
  let firstDay := dayNumber ⟨year, 1, 1⟩
  let count : Nat := ((daysInYear year - 1) / 7).toNat + 1
  (List.range count).map fun k =>
    { index := k + 1
      start := firstDay + 7 * (k : Int)
      endD := firstDay + 7 * (k : Int) + 6 }

/-- The entity of the spec's §8 scenario: weekly rate
`(revenue 10000, cost 7000, adjustments 0)`, active 2024-01-01 through
2024-12-31. -/
def scenarioProject : Project :=
  { id := "p1"
    name := "Project 1"
    startDate := DateStr.ymd 2024 1 1
    endDate := DateStr.ymd 2024 12 31
    weeklyRevenue := 10000
    weeklyCost := 7000
    weeklyAdjustments := 0 }

/-- A concrete project with ordinary in-range dates, used to exercise
`clampProjectDatesToYear` against a two-digit target year. -/
def projectC10 : Project :=
  { id := "x"
    name := "X"
    startDate := DateStr.ymd 2024 3 5
    endDate := DateStr.ymd 2024 10 2
    weeklyRevenue := 1
    weeklyCost := 1
    weeklyAdjustments := 0 }

/-- A project whose start date string is malformed, exercising the
date-error path of the rollup. -/
def badDateProject : Project :=
  { id := "b"
    name := "B"
    startDate := DateStr.malformed
    endDate := DateStr.ymd 2024 1 1
    weeklyRevenue := 5
    weeklyCost := 1
    weeklyAdjustments := 0 }

/-- The conditions under which `parseDateInput` accepts a `ymd` triple:
exactly the image of `parseDateInput`. -/
def validCivil (c : CivilDate) : Prop :=
  100 ≤ c.y ∧ 1 ≤ c.m ∧ c.m ≤ 12 ∧ 1 ≤ c.d ∧ c.d ≤ daysInMonth c.y c.m

end Proforma

namespace Proforma

lemma getD_range_map {α : Type} (f : Nat → α) (n i : Nat) (d : α) (h : i < n) :
    ((List.range n).map f).getD i d = f i := by
  rw [List.getD_eq_getElem?_getD, List.getElem?_map, List.getElem?_range h]
  rfl

lemma buildMonths_getD (year : Int) (i : Nat) (h : i < 12) :
    (buildMonthsForYear year).getD i ⟨0, 0, 0⟩ =
      ⟨i, dayNumber ⟨jsYear year, (i : Int) + 1, 1⟩,
        dayNumber ⟨jsYear year, (i : Int) + 1, daysInMonth (jsYear year) ((i : Int) + 1)⟩⟩ := by
  unfold buildMonthsForYear
  exact getD_range_map _ 12 i _ h

/-- C3 (counterexample): at year argument 0 the program's buckets are
those of 1900 (the JS `Date` constructor maps years 0..99 to 1900+year):
the February bucket has 28 days although year 0 is a Gregorian leap year
(so the claim expects 29), and the first bucket does not start on
January 1 of year 0. -/
theorem claim_C3_counterexample :
    isLeap 0 = true ∧
    ((buildMonthsForYear 0).getD 1 ⟨0, 0, 0⟩).endD
        - ((buildMonthsForYear 0).getD 1 ⟨0, 0, 0⟩).start + 1 = 28 ∧
    ((buildMonthsForYear 0).getD 0 ⟨0, 0, 0⟩).start ≠ dayNumber ⟨0, 1, 1⟩ := by
  refine ⟨by decide, by decide, by decide⟩

/-- C3 (amended): for every integer year, month-granularity bucket
generation yields exactly 12 buckets, ordered January through December,
contiguous and gap-free (the start of bucket i+1 is one day after the end
of bucket i), together spanning exactly January 1 through December 31 of
the constructor-mapped year `jsYear year` (which is 1900+year for year
arguments 0..99 and the year itself otherwise), with February's bucket
having 28 or 29 days as appropriate for that mapped year. -/
theorem claim_C3 (year : Int) :
    (buildMonthsForYear year).length = 12 ∧
    (∀ i : Nat, i < 12 → ((buildMonthsForYear year).getD i ⟨0, 0, 0⟩).monthIndex = i) ∧
    ((buildMonthsForYear year).getD 0 ⟨0, 0, 0⟩).start = dayNumber ⟨jsYear year, 1, 1⟩ ∧
    (∀ i : Nat, i < 11 →
      ((buildMonthsForYear year).getD (i + 1) ⟨0, 0, 0⟩).start
        = ((buildMonthsForYear year).getD i ⟨0, 0, 0⟩).endD + 1) ∧
    ((buildMonthsForYear year).getD 11 ⟨0, 0, 0⟩).endD = dayNumber ⟨jsYear year, 12, 31⟩ ∧
    (∀ i : Nat, i < 12 →
      ((buildMonthsForYear year).getD i ⟨0, 0, 0⟩).start
        ≤ ((buildMonthsForYear year).getD i ⟨0, 0, 0⟩).endD) ∧
    ((buildMonthsForYear year).getD 1 ⟨0, 0, 0⟩).endD
        - ((buildMonthsForYear year).getD 1 ⟨0, 0, 0⟩).start + 1
      = if isLeap (jsYear year) then 29 else 28 := by
  refine ⟨by simp [buildMonthsForYear], ?_, ?_, ?_, ?_, ?_, ?_⟩
  · intro i h
    rw [buildMonths_getD year i h]
  · rw [buildMonths_getD year 0 (by norm_num)]
    norm_num
  · intro i h
    rw [buildMonths_getD year (i + 1) (by omega), buildMonths_getD year i (by omega)]
    rcases hL : isLeap (jsYear year) with _ | _ <;>
      interval_cases i <;>
      simp [dayNumber, daysBeforeMonth, daysInMonth, hL] <;> omega
  · rw [buildMonths_getD year 11 (by norm_num)]
    rcases hL : isLeap (jsYear year) with _ | _ <;>
      simp [dayNumber, daysBeforeMonth, daysInMonth, hL]
  · intro i h
    rw [buildMonths_getD year i h]
    rcases hL : isLeap (jsYear year) with _ | _ <;>
      interval_cases i <;>
      simp [dayNumber, daysBeforeMonth, daysInMonth, hL]
  · rw [buildMonths_getD year 1 (by norm_num)]
    rcases hL : isLeap (jsYear year) with _ | _ <;>
      simp [dayNumber, daysBeforeMonth, daysInMonth, hL]

theorem claim_C3_witness :
    (buildMonthsForYear 2024).length = 12 ∧
    ((buildMonthsForYear 2024).getD 2 ⟨0, 0, 0⟩).start
      = ((buildMonthsForYear 2024).getD 1 ⟨0, 0, 0⟩).endD + 1 ∧
    ((buildMonthsForYear 2024).getD 1 ⟨0, 0, 0⟩).endD
        - ((buildMonthsForYear 2024).getD 1 ⟨0, 0, 0⟩).start + 1 = 29 := by
  refine ⟨(claim_C3 2024).1, (claim_C3 2024).2.2.2.1 1 (by norm_num), ?_⟩
  have h := (claim_C3 2024).2.2.2.2.2.2
  rwa [if_pos (by decide : isLeap (jsYear 2024) = true)] at h

lemma daysInYear_cases (year : Int) : daysInYear year = 365 ∨ daysInYear year = 366 := by
  unfold daysInYear
  split_ifs <;> simp

lemma dayNumber_dec31 (year : Int) :
    dayNumber ⟨year, 12, 31⟩ = dayNumber ⟨year, 1, 1⟩ + daysInYear year - 1 := by
  rcases hL : isLeap year with _ | _ <;>
    simp [dayNumber, daysBeforeMonth, daysInYear, hL] <;> ring

lemma buildWeeks_eq (year : Int) :
    buildWeeksForYear year = (List.range 53).map fun k =>
      ⟨k + 1, dayNumber ⟨year, 1, 1⟩ + 7 * (k : Int),
        dayNumber ⟨year, 1, 1⟩ + 7 * (k : Int) + 6⟩ := by
  unfold buildWeeksForYear
  rcases hL : isLeap year with _ | _ <;> norm_num [daysInYear, hL] <;> rfl

/-- C2: for every year, week-granularity bucket generation yields buckets
of exactly 7 days each, where bucket 1 starts January 1, each next bucket
starts the day after the previous bucket ends, generation continues while
the bucket's start date is on or before December 31 (and stops as soon as
it would pass it), and the final bucket's end may extend past December 31
without truncation (it covers through at least December 31). -/
theorem claim_C2 (year : Int) :
    (∀ b ∈ buildWeeksForYear year, b.endD - b.start + 1 = 7) ∧
    ((buildWeeksForYear year).getD 0 ⟨0, 0, 0⟩).start = dayNumber ⟨year, 1, 1⟩ ∧
    ((buildWeeksForYear year).getD 0 ⟨0, 0, 0⟩).index = 1 ∧
    (∀ i : Nat, i + 1 < (buildWeeksForYear year).length →
      ((buildWeeksForYear year).getD (i + 1) ⟨0, 0, 0⟩).start
        = ((buildWeeksForYear year).getD i ⟨0, 0, 0⟩).endD + 1) ∧
    (∀ b ∈ buildWeeksForYear year, b.start ≤ dayNumber ⟨year, 12, 31⟩) ∧
    dayNumber ⟨year, 12, 31⟩
      < ((buildWeeksForYear year).getD ((buildWeeksForYear year).length - 1) ⟨0, 0, 0⟩).start + 7 ∧
    dayNumber ⟨year, 12, 31⟩
      ≤ ((buildWeeksForYear year).getD ((buildWeeksForYear year).length - 1) ⟨0, 0, 0⟩).endD := by
  have hlen : (buildWeeksForYear year).length = 53 := by
    rw [buildWeeks_eq]; simp
  have hdec := dayNumber_dec31 year
  have hdy := daysInYear_cases year
  refine ⟨?_, ?_, ?_, ?_, ?_, ?_, ?_⟩
  · intro b hb
    rw [buildWeeks_eq] at hb
    obtain ⟨k, _, rfl⟩ := List.mem_map.mp hb
    simp
  · rw [buildWeeks_eq, getD_range_map _ 53 0 _ (by norm_num)]
    norm_num
  · rw [buildWeeks_eq, getD_range_map _ 53 0 _ (by norm_num)]
  · intro i h
    rw [hlen] at h
    rw [buildWeeks_eq, getD_range_map _ 53 (i + 1) _ (by omega),
      getD_range_map _ 53 i _ (by omega)]
    push_cast
    ring
  · intro b hb
    rw [buildWeeks_eq] at hb
    obtain ⟨k, hk, rfl⟩ := List.mem_map.mp hb
    rw [List.mem_range] at hk
    have : (k : Int) ≤ 52 := by omega
    dsimp only
    omega
  · rw [hlen, buildWeeks_eq, getD_range_map _ 53 52 _ (by norm_num)]
    norm_num
    omega
  · rw [hlen, buildWeeks_eq, getD_range_map _ 53 52 _ (by norm_num)]
    norm_num
    omega

theorem claim_C2_witness :
    ((buildWeeksForYear 2024).getD 0 ⟨0, 0, 0⟩).start = dayNumber ⟨2024, 1, 1⟩ ∧
    ((buildWeeksForYear 2024).getD 1 ⟨0, 0, 0⟩).start
      = ((buildWeeksForYear 2024).getD 0 ⟨0, 0, 0⟩).endD + 1 ∧
    ((buildWeeksForYear 2024).getD 52 ⟨0, 0, 0⟩).endD - ((buildWeeksForYear 2024).getD 52 ⟨0, 0, 0⟩).start + 1 = 7 := by
  refine ⟨(claim_C2 2024).2.1, ?_, ?_⟩
  · have h := (claim_C2 2024).2.2.2.1 0 (by decide)
    exact h
  · have h := (claim_C2 2024).1 ((buildWeeksForYear 2024).getD 52 ⟨0, 0, 0⟩) (by decide)
    exact h

lemma overlap_nonneg (aS aE bS bE : Int) : 0 ≤ overlapDaysInclusive aS aE bS bE := by
  simp only [overlapDaysInclusive]
  split_ifs <;> omega

lemma overlap_split (s e a b b1 c : Int) (hb1 : b1 = b + 1) (hab : a ≤ b) (hbc : b ≤ c) :
    overlapDaysInclusive s e a c
      = overlapDaysInclusive s e a b + overlapDaysInclusive s e b1 c := by
  subst hb1
  simp only [overlapDaysInclusive]
  split_ifs <;> omega

lemma overlap_empty (s e bS bE : Int) (h : e < s) : overlapDaysInclusive s e bS bE = 0 := by
  simp only [overlapDaysInclusive]
  split_ifs <;> omega

/-- C4: against any bucket, the bucket amount is zero when the project
range and the bucket do not overlap; otherwise the inclusive day count is
`min(e, bEnd) - max(s, bStart) + 1` and each component is the weekly rate
scaled by `days / 7`, with margin derived as revenue - cost + adjustments. -/
theorem claim_C4 (s e bS bE : Int) (idx : Nat) (wr wc wa : ℚ) :
    (max s bS > min e bE → bucketAmount s e wr wc wa ⟨idx, bS, bE⟩ = zeroAmounts) ∧
    (max s bS ≤ min e bE →
      overlapDaysInclusive s e bS bE = min e bE - max s bS + 1 ∧
      (bucketAmount s e wr wc wa ⟨idx, bS, bE⟩).revenue
        = wr * (((min e bE - max s bS + 1 : Int) : ℚ) / 7) ∧
      (bucketAmount s e wr wc wa ⟨idx, bS, bE⟩).cost
        = wc * (((min e bE - max s bS + 1 : Int) : ℚ) / 7) ∧
      (bucketAmount s e wr wc wa ⟨idx, bS, bE⟩).adjustments
        = wa * (((min e bE - max s bS + 1 : Int) : ℚ) / 7) ∧
      (bucketAmount s e wr wc wa ⟨idx, bS, bE⟩).margin
        = (bucketAmount s e wr wc wa ⟨idx, bS, bE⟩).revenue
            - (bucketAmount s e wr wc wa ⟨idx, bS, bE⟩).cost
            + (bucketAmount s e wr wc wa ⟨idx, bS, bE⟩).adjustments) := by
  constructor
  · intro h
    simp only [bucketAmount, overlapDaysInclusive]
    split_ifs <;> first | rfl | omega
  · intro h
    have hov : overlapDaysInclusive s e bS bE = min e bE - max s bS + 1 := by
      simp only [overlapDaysInclusive]
      split_ifs <;> omega
    have hb : bucketAmount s e wr wc wa ⟨idx, bS, bE⟩
        = amountsFromWeekly wr wc wa (((min e bE - max s bS + 1 : Int) : ℚ) / 7) := by
      simp only [bucketAmount]
      rw [hov, if_neg (by omega)]
    refine ⟨hov, ?_, ?_, ?_, ?_⟩ <;> rw [hb] <;> simp [amountsFromWeekly]

theorem claim_C4_witness :
    bucketAmount 10 20 100 50 7 ⟨0, 0, 5⟩ = zeroAmounts ∧
    (bucketAmount 0 30 100 50 7 ⟨0, 0, 30⟩).revenue = 100 * (((31 : Int) : ℚ) / 7) := by
  constructor
  · exact (claim_C4 10 20 0 5 0 100 50 7).1 (by norm_num)
  · have h := ((claim_C4 0 30 0 30 0 100 50 7).2 (by norm_num)).2.1
    norm_num at h ⊢
    exact h

lemma addAmounts_zero (a : Amounts) : addAmounts a zeroAmounts = a := by
  apply Amounts.ext <;> simp [addAmounts, zeroAmounts]

lemma zero_addAmounts (a : Amounts) : addAmounts zeroAmounts a = a := by
  apply Amounts.ext <;> simp [addAmounts, zeroAmounts]

lemma addAmounts_comm (a b : Amounts) : addAmounts a b = addAmounts b a := by
  apply Amounts.ext <;> simp [addAmounts] <;> ring

lemma addAmounts_assoc (a b c : Amounts) :
    addAmounts (addAmounts a b) c = addAmounts a (addAmounts b c) := by
  apply Amounts.ext <;> simp [addAmounts] <;> ring

lemma amountsFromWeekly_zero (wr wc wa : ℚ) :
    amountsFromWeekly wr wc wa 0 = zeroAmounts := by
  simp [amountsFromWeekly, zeroAmounts]

lemma amountsFromWeekly_add (wr wc wa x y : ℚ) :
    addAmounts (amountsFromWeekly wr wc wa x) (amountsFromWeekly wr wc wa y)
      = amountsFromWeekly wr wc wa (x + y) := by
  apply Amounts.ext <;> simp [amountsFromWeekly, addAmounts] <;> ring

lemma bucketAmount_eq (s e : Int) (wr wc wa : ℚ) (b : MonthBucket) :
    bucketAmount s e wr wc wa b
      = amountsFromWeekly wr wc wa (((overlapDaysInclusive s e b.start b.endD : Int) : ℚ) / 7) := by
  simp only [bucketAmount]
  split_ifs with h
  · have h0 : overlapDaysInclusive s e b.start b.endD = 0 :=
      le_antisymm h (overlap_nonneg s e b.start b.endD)
    rw [h0]
    norm_num [amountsFromWeekly, zeroAmounts]
  · rfl

lemma buildMonths_nonleap (year : Int) (hL : isLeap (jsYear year) = false) :
    buildMonthsForYear year =
      [⟨0, dayNumber ⟨jsYear year, 1, 1⟩, dayNumber ⟨jsYear year, 1, 1⟩ + 30⟩,
       ⟨1, dayNumber ⟨jsYear year, 1, 1⟩ + 31, dayNumber ⟨jsYear year, 1, 1⟩ + 58⟩,
       ⟨2, dayNumber ⟨jsYear year, 1, 1⟩ + 59, dayNumber ⟨jsYear year, 1, 1⟩ + 89⟩,
       ⟨3, dayNumber ⟨jsYear year, 1, 1⟩ + 90, dayNumber ⟨jsYear year, 1, 1⟩ + 119⟩,
       ⟨4, dayNumber ⟨jsYear year, 1, 1⟩ + 120, dayNumber ⟨jsYear year, 1, 1⟩ + 150⟩,
       ⟨5, dayNumber ⟨jsYear year, 1, 1⟩ + 151, dayNumber ⟨jsYear year, 1, 1⟩ + 180⟩,
       ⟨6, dayNumber ⟨jsYear year, 1, 1⟩ + 181, dayNumber ⟨jsYear year, 1, 1⟩ + 211⟩,
       ⟨7, dayNumber ⟨jsYear year, 1, 1⟩ + 212, dayNumber ⟨jsYear year, 1, 1⟩ + 242⟩,
       ⟨8, dayNumber ⟨jsYear year, 1, 1⟩ + 243, dayNumber ⟨jsYear year, 1, 1⟩ + 272⟩,
       ⟨9, dayNumber ⟨jsYear year, 1, 1⟩ + 273, dayNumber ⟨jsYear year, 1, 1⟩ + 303⟩,
       ⟨10, dayNumber ⟨jsYear year, 1, 1⟩ + 304, dayNumber ⟨jsYear year, 1, 1⟩ + 333⟩,
       ⟨11, dayNumber ⟨jsYear year, 1, 1⟩ + 334, dayNumber ⟨jsYear year, 1, 1⟩ + 364⟩] := by
  unfold buildMonthsForYear
  rw [show List.range 12 = [0, 1, 2, 3, 4, 5, 6, 7, 8, 9, 10, 11] from by decide]
  simp only [List.map_cons, List.map_nil, MonthBucket.mk.injEq]
  norm_num [dayNumber, daysBeforeMonth, daysInMonth, hL]
  omega

lemma buildMonths_leap (year : Int) (hL : isLeap (jsYear year) = true) :
    buildMonthsForYear year =
      [⟨0, dayNumber ⟨jsYear year, 1, 1⟩, dayNumber ⟨jsYear year, 1, 1⟩ + 30⟩,
       ⟨1, dayNumber ⟨jsYear year, 1, 1⟩ + 31, dayNumber ⟨jsYear year, 1, 1⟩ + 59⟩,
       ⟨2, dayNumber ⟨jsYear year, 1, 1⟩ + 60, dayNumber ⟨jsYear year, 1, 1⟩ + 90⟩,
       ⟨3, dayNumber ⟨jsYear year, 1, 1⟩ + 91, dayNumber ⟨jsYear year, 1, 1⟩ + 120⟩,
       ⟨4, dayNumber ⟨jsYear year, 1, 1⟩ + 121, dayNumber ⟨jsYear year, 1, 1⟩ + 151⟩,
       ⟨5, dayNumber ⟨jsYear year, 1, 1⟩ + 152, dayNumber ⟨jsYear year, 1, 1⟩ + 181⟩,
       ⟨6, dayNumber ⟨jsYear year, 1, 1⟩ + 182, dayNumber ⟨jsYear year, 1, 1⟩ + 212⟩,
       ⟨7, dayNumber ⟨jsYear year, 1, 1⟩ + 213, dayNumber ⟨jsYear year, 1, 1⟩ + 243⟩,
       ⟨8, dayNumber ⟨jsYear year, 1, 1⟩ + 244, dayNumber ⟨jsYear year, 1, 1⟩ + 273⟩,
       ⟨9, dayNumber ⟨jsYear year, 1, 1⟩ + 274, dayNumber ⟨jsYear year, 1, 1⟩ + 304⟩,
       ⟨10, dayNumber ⟨jsYear year, 1, 1⟩ + 305, dayNumber ⟨jsYear year, 1, 1⟩ + 334⟩,
       ⟨11, dayNumber ⟨jsYear year, 1, 1⟩ + 335, dayNumber ⟨jsYear year, 1, 1⟩ + 365⟩] := by
  unfold buildMonthsForYear
  rw [show List.range 12 = [0, 1, 2, 3, 4, 5, 6, 7, 8, 9, 10, 11] from by decide]
  simp only [List.map_cons, List.map_nil, MonthBucket.mk.injEq]
  norm_num [dayNumber, daysBeforeMonth, daysInMonth, hL]
  omega

lemma months_total (year : Int) (s e : Int) (wr wc wa : ℚ) :
    ((buildMonthsForYear year).map (bucketAmount s e wr wc wa)).foldl addAmounts zeroAmounts
      = bucketAmount s e wr wc wa
          ⟨0, dayNumber ⟨jsYear year, 1, 1⟩, dayNumber ⟨jsYear year, 12, 31⟩⟩ := by
  have hdec := dayNumber_dec31 (jsYear year)
  rcases hL : isLeap (jsYear year) with _ | _
  case false =>
    rw [buildMonths_nonleap year hL,
      show dayNumber ⟨jsYear year, 12, 31⟩ = dayNumber ⟨jsYear year, 1, 1⟩ + 364 from by
        rw [hdec]; simp [daysInYear, hL]; ring]
    generalize dayNumber ⟨jsYear year, 1, 1⟩ = J
    simp only [List.map_cons, List.map_nil, List.foldl_cons, List.foldl_nil]
    rw [show zeroAmounts = amountsFromWeekly wr wc wa 0 from (amountsFromWeekly_zero wr wc wa).symm]
    simp only [bucketAmount_eq, amountsFromWeekly_add]
    congr 1
    have h1 := overlap_split s e J (J + 30) (J + 31) (J + 364) (by ring) (by omega) (by omega)
    have h2 := overlap_split s e (J + 31) (J + 58) (J + 59) (J + 364) (by ring) (by omega) (by omega)
    have h3 := overlap_split s e (J + 59) (J + 89) (J + 90) (J + 364) (by ring) (by omega) (by omega)
    have h4 := overlap_split s e (J + 90) (J + 119) (J + 120) (J + 364) (by ring) (by omega) (by omega)
    have h5 := overlap_split s e (J + 120) (J + 150) (J + 151) (J + 364) (by ring) (by omega) (by omega)
    have h6 := overlap_split s e (J + 151) (J + 180) (J + 181) (J + 364) (by ring) (by omega) (by omega)
    have h7 := overlap_split s e (J + 181) (J + 211) (J + 212) (J + 364) (by ring) (by omega) (by omega)
    have h8 := overlap_split s e (J + 212) (J + 242) (J + 243) (J + 364) (by ring) (by omega) (by omega)
    have h9 := overlap_split s e (J + 243) (J + 272) (J + 273) (J + 364) (by ring) (by omega) (by omega)
    have h10 := overlap_split s e (J + 273) (J + 303) (J + 304) (J + 364) (by ring) (by omega) (by omega)
    have h11 := overlap_split s e (J + 304) (J + 333) (J + 334) (J + 364) (by ring) (by omega) (by omega)
    have hIntSum :
        overlapDaysInclusive s e J (J + 30) + overlapDaysInclusive s e (J + 31) (J + 58)
          + overlapDaysInclusive s e (J + 59) (J + 89) + overlapDaysInclusive s e (J + 90) (J + 119)
          + overlapDaysInclusive s e (J + 120) (J + 150) + overlapDaysInclusive s e (J + 151) (J + 180)
          + overlapDaysInclusive s e (J + 181) (J + 211) + overlapDaysInclusive s e (J + 212) (J + 242)
          + overlapDaysInclusive s e (J + 243) (J + 272) + overlapDaysInclusive s e (J + 273) (J + 303)
          + overlapDaysInclusive s e (J + 304) (J + 333) + overlapDaysInclusive s e (J + 334) (J + 364)
          = overlapDaysInclusive s e J (J + 364) := by
      omega
    have hQ := congrArg (fun z : Int => (z : ℚ)) hIntSum
    push_cast at hQ
    linear_combination hQ / 7
  case true =>
    rw [buildMonths_leap year hL,
      show dayNumber ⟨jsYear year, 12, 31⟩ = dayNumber ⟨jsYear year, 1, 1⟩ + 365 from by
        rw [hdec]; simp [daysInYear, hL]; ring]
    generalize dayNumber ⟨jsYear year, 1, 1⟩ = J
    simp only [List.map_cons, List.map_nil, List.foldl_cons, List.foldl_nil]
    rw [show zeroAmounts = amountsFromWeekly wr wc wa 0 from (amountsFromWeekly_zero wr wc wa).symm]
    simp only [bucketAmount_eq, amountsFromWeekly_add]
    congr 1
    have h1 := overlap_split s e J (J + 30) (J + 31) (J + 365) (by ring) (by omega) (by omega)
    have h2 := overlap_split s e (J + 31) (J + 59) (J + 60) (J + 365) (by ring) (by omega) (by omega)
    have h3 := overlap_split s e (J + 60) (J + 90) (J + 91) (J + 365) (by ring) (by omega) (by omega)
    have h4 := overlap_split s e (J + 91) (J + 120) (J + 121) (J + 365) (by ring) (by omega) (by omega)
    have h5 := overlap_split s e (J + 121) (J + 151) (J + 152) (J + 365) (by ring) (by omega) (by omega)
    have h6 := overlap_split s e (J + 152) (J + 181) (J + 182) (J + 365) (by ring) (by omega) (by omega)
    have h7 := overlap_split s e (J + 182) (J + 212) (J + 213) (J + 365) (by ring) (by omega) (by omega)
    have h8 := overlap_split s e (J + 213) (J + 243) (J + 244) (J + 365) (by ring) (by omega) (by omega)
    have h9 := overlap_split s e (J + 244) (J + 273) (J + 274) (J + 365) (by ring) (by omega) (by omega)
    have h10 := overlap_split s e (J + 274) (J + 304) (J + 305) (J + 365) (by ring) (by omega) (by omega)
    have h11 := overlap_split s e (J + 305) (J + 334) (J + 335) (J + 365) (by ring) (by omega) (by omega)
    have hIntSum :
        overlapDaysInclusive s e J (J + 30) + overlapDaysInclusive s e (J + 31) (J + 59)
          + overlapDaysInclusive s e (J + 60) (J + 90) + overlapDaysInclusive s e (J + 91) (J + 120)
          + overlapDaysInclusive s e (J + 121) (J + 151) + overlapDaysInclusive s e (J + 152) (J + 181)
          + overlapDaysInclusive s e (J + 182) (J + 212) + overlapDaysInclusive s e (J + 213) (J + 243)
          + overlapDaysInclusive s e (J + 244) (J + 273) + overlapDaysInclusive s e (J + 274) (J + 304)
          + overlapDaysInclusive s e (J + 305) (J + 334) + overlapDaysInclusive s e (J + 335) (J + 365)
          = overlapDaysInclusive s e J (J + 365) := by
      omega
    have hQ := congrArg (fun z : Int => (z : ℚ)) hIntSum
    push_cast at hQ
    linear_combination hQ / 7

/-- C5: for every project whose two dates parse and every year, the
element-wise sum of its per-bucket amounts over the year equals the amount
computed directly against a single bucket spanning the whole year. -/
theorem claim_C5 (year : Int) (p : Project) (ps pe : CivilDate)
    (hs : parseDateInput p.startDate = some ps) (he : parseDateInput p.endDate = some pe) :
    (projectRow (buildMonthsForYear year) p).total
      = bucketAmount (dayNumber ps) (dayNumber pe) p.weeklyRevenue p.weeklyCost p.weeklyAdjustments
          ⟨0, dayNumber ⟨jsYear year, 1, 1⟩, dayNumber ⟨jsYear year, 12, 31⟩⟩ := by
  have hrow : (projectRow (buildMonthsForYear year) p).total
      = ((buildMonthsForYear year).map
          (bucketAmount (dayNumber ps) (dayNumber pe)
            p.weeklyRevenue p.weeklyCost p.weeklyAdjustments)).foldl addAmounts zeroAmounts := by
    simp only [projectRow, hs, he]
  rw [hrow, months_total]

theorem claim_C5_witness :
    (projectRow (buildMonthsForYear 2024) scenarioProject).total
      = bucketAmount (dayNumber ⟨2024, 1, 1⟩) (dayNumber ⟨2024, 12, 31⟩) 10000 7000 0
          ⟨0, dayNumber ⟨jsYear 2024, 1, 1⟩, dayNumber ⟨jsYear 2024, 12, 31⟩⟩ :=
  claim_C5 2024 scenarioProject ⟨2024, 1, 1⟩ ⟨2024, 12, 31⟩ (by decide) (by decide)

lemma foldl_addAmounts (l : List Amounts) (a : Amounts) :
    l.foldl addAmounts a = addAmounts a (l.foldl addAmounts zeroAmounts) := by
  induction l generalizing a with
  | nil => simp [addAmounts_zero]
  | cons x xs ih =>
    simp only [List.foldl_cons]
    rw [ih (addAmounts a x), ih (addAmounts zeroAmounts x), zero_addAmounts, addAmounts_assoc]

lemma sum_cons (x : Amounts) (l : List Amounts) :
    (x :: l).foldl addAmounts zeroAmounts = addAmounts x (l.foldl addAmounts zeroAmounts) := by
  rw [List.foldl_cons, zero_addAmounts, foldl_addAmounts]

lemma sum_map_zero {α : Type} (l : List α) :
    (l.map fun _ => zeroAmounts).foldl addAmounts zeroAmounts = zeroAmounts := by
  induction l with
  | nil => rfl
  | cons x xs ih => rw [List.map_cons, sum_cons, ih, addAmounts_zero]

lemma sum_map_add {α : Type} (l : List α) (f g : α → Amounts) :
    (l.map fun x => addAmounts (f x) (g x)).foldl addAmounts zeroAmounts
      = addAmounts ((l.map f).foldl addAmounts zeroAmounts)
          ((l.map g).foldl addAmounts zeroAmounts) := by
  induction l with
  | nil => simp [addAmounts_zero]
  | cons x xs ih =>
    simp only [List.map_cons, sum_cons, ih]
    apply Amounts.ext <;> simp [addAmounts] <;> ring

lemma sum_getD (r : List Amounts) :
    ((List.range r.length).map fun mi => r.getD mi zeroAmounts).foldl addAmounts zeroAmounts
      = r.foldl addAmounts zeroAmounts := by
  induction r with
  | nil => rfl
  | cons x xs ih =>
    rw [List.length_cons, List.range_succ_eq_map, List.map_cons, List.map_map]
    simp only [Function.comp_def, List.getD_cons_succ, List.getD_cons_zero]
    rw [sum_cons, ih, sum_cons]

lemma foldl_step_init {α : Type} (g : α → Amounts) (l : List α) (a : Amounts) :
    l.foldl (fun acc x => addAmounts acc (g x)) a
      = addAmounts a (l.foldl (fun acc x => addAmounts acc (g x)) zeroAmounts) := by
  rw [← List.foldl_map g addAmounts l a, ← List.foldl_map g addAmounts l zeroAmounts,
    foldl_addAmounts]

lemma fold_exchange (n : Nat) (rows : List (List Amounts)) (h : ∀ r ∈ rows, r.length = n) :
    ((List.range n).map fun mi =>
        rows.foldl (fun acc r => addAmounts acc (r.getD mi zeroAmounts)) zeroAmounts).foldl
      addAmounts zeroAmounts
    = (rows.map fun r => r.foldl addAmounts zeroAmounts).foldl addAmounts zeroAmounts := by
  induction rows with
  | nil =>
    simp only [List.foldl_nil, List.map_nil]
    exact sum_map_zero _
  | cons r rows ih =>
    obtain rfl : n = r.length := (h r (List.mem_cons_self r rows)).symm
    have hrows : ∀ q ∈ rows, q.length = r.length :=
      fun q hq => h q (List.mem_cons_of_mem r hq)
    have hfun :
        (fun mi => (r :: rows).foldl
            (fun acc q => addAmounts acc (q.getD mi zeroAmounts)) zeroAmounts)
          = fun mi => addAmounts (r.getD mi zeroAmounts)
              (rows.foldl (fun acc q => addAmounts acc (q.getD mi zeroAmounts)) zeroAmounts) := by
      funext mi
      rw [List.foldl_cons, zero_addAmounts, foldl_step_init]
    rw [hfun, sum_map_add, sum_getD, ih hrows, List.map_cons, sum_cons]

lemma projectRow_total (months : List MonthBucket) (p : Project) :
    (projectRow months p).total = (projectRow months p).byMonth.foldl addAmounts zeroAmounts := rfl

lemma projectRow_byMonth_length (months : List MonthBucket) (p : Project) :
    (projectRow months p).byMonth.length = months.length := by
  simp [projectRow]

/-- C9: the portfolio total equals both the element-wise sum over buckets
of the portfolio per-bucket amounts and the element-wise sum of all
entity totals; for the empty collection it is the zero amounts. -/
theorem claim_C9 (year : Int) (projects : List Project) :
    (portfolioByMonth (buildMonthsForYear year)
        (projectMonthGrid (buildMonthsForYear year) projects)).total
      = (portfolioByMonth (buildMonthsForYear year)
          (projectMonthGrid (buildMonthsForYear year) projects)).byMonth.foldl
            addAmounts zeroAmounts ∧
    (portfolioByMonth (buildMonthsForYear year)
        (projectMonthGrid (buildMonthsForYear year) projects)).total
      = ((projectMonthGrid (buildMonthsForYear year) projects).map Row.total).foldl
          addAmounts zeroAmounts ∧
    (projects = [] →
      (portfolioByMonth (buildMonthsForYear year)
          (projectMonthGrid (buildMonthsForYear year) projects)).total = zeroAmounts) := by
  refine ⟨rfl, ?_, ?_⟩
  · show ((List.range (buildMonthsForYear year).length).map fun mi =>
        (projectMonthGrid (buildMonthsForYear year) projects).foldl
          (fun acc row => addAmounts acc (row.byMonth.getD mi zeroAmounts)) zeroAmounts).foldl
        addAmounts zeroAmounts = _
    have hconv :
        (fun mi => (projectMonthGrid (buildMonthsForYear year) projects).foldl
            (fun acc row => addAmounts acc (row.byMonth.getD mi zeroAmounts)) zeroAmounts)
          = fun mi => ((projectMonthGrid (buildMonthsForYear year) projects).map Row.byMonth).foldl
              (fun acc r => addAmounts acc (r.getD mi zeroAmounts)) zeroAmounts := by
      funext mi
      rw [List.foldl_map]
    rw [hconv, fold_exchange]
    · rw [List.map_map]
      have : ((projectMonthGrid (buildMonthsForYear year) projects).map
            ((fun r => r.foldl addAmounts zeroAmounts) ∘ Row.byMonth))
          = (projectMonthGrid (buildMonthsForYear year) projects).map Row.total := by
        apply List.map_congr_left
        intro row hrow
        obtain ⟨p, hp, rfl⟩ := List.mem_map.mp hrow
        exact (projectRow_total _ p).symm
      rw [this]
    · intro r hr
      obtain ⟨row, hrow, rfl⟩ := List.mem_map.mp hr
      obtain ⟨p, hp, rfl⟩ := List.mem_map.mp hrow
      exact projectRow_byMonth_length _ p
  · intro h
    subst h
    show ((List.range (buildMonthsForYear year).length).map fun mi =>
        ([] : List Row).foldl
          (fun acc row => addAmounts acc (row.byMonth.getD mi zeroAmounts)) zeroAmounts).foldl
        addAmounts zeroAmounts = zeroAmounts
    simp only [List.foldl_nil]
    exact sum_map_zero _

theorem claim_C9_witness :
    (portfolioByMonth (buildMonthsForYear 2024)
        (projectMonthGrid (buildMonthsForYear 2024) ([] : List Project))).total = zeroAmounts :=
  (claim_C9 2024 []).2.2 rfl

lemma marginOK_zero :
    zeroAmounts.margin = zeroAmounts.revenue - zeroAmounts.cost + zeroAmounts.adjustments := by
  simp [zeroAmounts]

lemma marginOK_bucketAmount (s e : Int) (wr wc wa : ℚ) (b : MonthBucket) :
    (bucketAmount s e wr wc wa b).margin
      = (bucketAmount s e wr wc wa b).revenue - (bucketAmount s e wr wc wa b).cost
        + (bucketAmount s e wr wc wa b).adjustments := by
  rw [bucketAmount_eq]
  simp [amountsFromWeekly]

lemma marginOK_add {a b : Amounts}
    (ha : a.margin = a.revenue - a.cost + a.adjustments)
    (hb : b.margin = b.revenue - b.cost + b.adjustments) :
    (addAmounts a b).margin
      = (addAmounts a b).revenue - (addAmounts a b).cost + (addAmounts a b).adjustments := by
  simp only [addAmounts]
  rw [ha, hb]
  ring

lemma marginOK_fold (l : List Amounts) :
    ∀ init : Amounts, init.margin = init.revenue - init.cost + init.adjustments →
    (∀ a ∈ l, a.margin = a.revenue - a.cost + a.adjustments) →
    (l.foldl addAmounts init).margin
      = (l.foldl addAmounts init).revenue - (l.foldl addAmounts init).cost
        + (l.foldl addAmounts init).adjustments := by
  induction l with
  | nil => intro init hi _; exact hi
  | cons x xs ih =>
    intro init hi h
    rw [List.foldl_cons]
    exact ih (addAmounts init x) (marginOK_add hi (h x (List.mem_cons_self x xs)))
      fun a ha => h a (List.mem_cons_of_mem x ha)

lemma marginOK_foldl {α : Type} (g : α → Amounts) (l : List α) :
    ∀ init : Amounts, init.margin = init.revenue - init.cost + init.adjustments →
    (∀ x ∈ l, (g x).margin = (g x).revenue - (g x).cost + (g x).adjustments) →
    (l.foldl (fun acc x => addAmounts acc (g x)) init).margin
      = (l.foldl (fun acc x => addAmounts acc (g x)) init).revenue
        - (l.foldl (fun acc x => addAmounts acc (g x)) init).cost
        + (l.foldl (fun acc x => addAmounts acc (g x)) init).adjustments := by
  induction l with
  | nil => intro init hi _; exact hi
  | cons x xs ih =>
    intro init hi h
    rw [List.foldl_cons]
    exact ih (addAmounts init (g x)) (marginOK_add hi (h x (List.mem_cons_self x xs)))
      fun a ha => h a (List.mem_cons_of_mem x ha)

lemma marginOK_getD (l : List Amounts) (i : Nat)
    (h : ∀ a ∈ l, a.margin = a.revenue - a.cost + a.adjustments) :
    (l.getD i zeroAmounts).margin
      = (l.getD i zeroAmounts).revenue - (l.getD i zeroAmounts).cost
        + (l.getD i zeroAmounts).adjustments := by
  rcases Nat.lt_or_ge i l.length with hlt | hge
  · rw [List.getD_eq_getElem l zeroAmounts hlt]
    exact h _ (List.getElem_mem hlt)
  · rw [List.getD_eq_default l zeroAmounts hge]
    exact marginOK_zero

lemma byMonth_mem (months : List MonthBucket) (p : Project) (x : Amounts)
    (hx : x ∈ (projectRow months p).byMonth) :
    x = zeroAmounts ∨
      ∃ a b : CivilDate, ∃ m ∈ months, parseDateInput p.startDate = some a ∧
        parseDateInput p.endDate = some b ∧
        x = bucketAmount (dayNumber a) (dayNumber b)
              p.weeklyRevenue p.weeklyCost p.weeklyAdjustments m := by
  rcases hps : parseDateInput p.startDate with _ | a
  · left
    simp only [projectRow, hps] at hx
    obtain ⟨m, _, rfl⟩ := List.mem_map.mp hx
    rfl
  · rcases hpe : parseDateInput p.endDate with _ | b
    · left
      simp only [projectRow, hps, hpe] at hx
      obtain ⟨m, _, rfl⟩ := List.mem_map.mp hx
      rfl
    · right
      simp only [projectRow, hps, hpe] at hx
      obtain ⟨m, hm, rfl⟩ := List.mem_map.mp hx
      exact ⟨a, b, m, hm, rfl, rfl, rfl⟩

lemma rowMarginOK (months : List MonthBucket) (p : Project) (x : Amounts)
    (hx : x ∈ (projectRow months p).byMonth) :
    x.margin = x.revenue - x.cost + x.adjustments := by
  rcases byMonth_mem months p x hx with rfl | ⟨a, b, m, _, _, _, rfl⟩
  · exact marginOK_zero
  · exact marginOK_bucketAmount _ _ _ _ _ _

/-- C6: every amounts tuple produced by the rollup (each per-project
per-bucket amount, each project total, each portfolio bucket amount, and
the portfolio total) satisfies margin = revenue - cost + adjustments. -/
theorem claim_C6 (year : Int) (projects : List Project) :
    (∀ row ∈ projectMonthGrid (buildMonthsForYear year) projects,
      (∀ a ∈ row.byMonth, a.margin = a.revenue - a.cost + a.adjustments) ∧
      row.total.margin = row.total.revenue - row.total.cost + row.total.adjustments) ∧
    (∀ a ∈ (portfolioByMonth (buildMonthsForYear year)
        (projectMonthGrid (buildMonthsForYear year) projects)).byMonth,
      a.margin = a.revenue - a.cost + a.adjustments) ∧
    (portfolioByMonth (buildMonthsForYear year)
        (projectMonthGrid (buildMonthsForYear year) projects)).total.margin
      = (portfolioByMonth (buildMonthsForYear year)
          (projectMonthGrid (buildMonthsForYear year) projects)).total.revenue
        - (portfolioByMonth (buildMonthsForYear year)
            (projectMonthGrid (buildMonthsForYear year) projects)).total.cost
        + (portfolioByMonth (buildMonthsForYear year)
            (projectMonthGrid (buildMonthsForYear year) projects)).total.adjustments := by
  have hrows : ∀ row ∈ projectMonthGrid (buildMonthsForYear year) projects,
      ∀ a ∈ row.byMonth, a.margin = a.revenue - a.cost + a.adjustments := by
    intro row hrow a ha
    obtain ⟨p, hp, rfl⟩ := List.mem_map.mp hrow
    exact rowMarginOK _ p a ha
  have hport : ∀ a ∈ (portfolioByMonth (buildMonthsForYear year)
      (projectMonthGrid (buildMonthsForYear year) projects)).byMonth,
      a.margin = a.revenue - a.cost + a.adjustments := by
    intro a ha
    obtain ⟨mi, _, rfl⟩ := List.mem_map.mp ha
    exact marginOK_foldl (fun row => row.byMonth.getD mi zeroAmounts) _ zeroAmounts marginOK_zero
      fun row hrow => marginOK_getD row.byMonth mi (hrows row hrow)
  refine ⟨?_, hport, ?_⟩
  · intro row hrow
    refine ⟨hrows row hrow, ?_⟩
    obtain ⟨p, hp, rfl⟩ := List.mem_map.mp hrow
    rw [projectRow_total]
    exact marginOK_fold _ zeroAmounts marginOK_zero (rowMarginOK _ p)
  · show ((portfolioByMonth (buildMonthsForYear year)
        (projectMonthGrid (buildMonthsForYear year) projects)).byMonth.foldl
          addAmounts zeroAmounts).margin = _
    exact marginOK_fold _ zeroAmounts marginOK_zero hport

theorem claim_C6_witness :
    ((projectRow (buildMonthsForYear 2024) scenarioProject).byMonth.getD 0 zeroAmounts).margin
      = ((projectRow (buildMonthsForYear 2024) scenarioProject).byMonth.getD 0 zeroAmounts).revenue
        - ((projectRow (buildMonthsForYear 2024) scenarioProject).byMonth.getD 0 zeroAmounts).cost
        + ((projectRow (buildMonthsForYear 2024) scenarioProject).byMonth.getD 0
            zeroAmounts).adjustments ∧
    (portfolioByMonth (buildMonthsForYear 2024)
        (projectMonthGrid (buildMonthsForYear 2024) [scenarioProject])).total.margin
      = (portfolioByMonth (buildMonthsForYear 2024)
          (projectMonthGrid (buildMonthsForYear 2024) [scenarioProject])).total.revenue
        - (portfolioByMonth (buildMonthsForYear 2024)
            (projectMonthGrid (buildMonthsForYear 2024) [scenarioProject])).total.cost
        + (portfolioByMonth (buildMonthsForYear 2024)
            (projectMonthGrid (buildMonthsForYear 2024) [scenarioProject])).total.adjustments := by
  constructor
  · have h := ((claim_C6 2024 [scenarioProject]).1
      (projectRow (buildMonthsForYear 2024) scenarioProject)
      (List.mem_singleton.mpr rfl)).1
    exact marginOK_getD _ 0 h
  · exact (claim_C6 2024 [scenarioProject]).2.2

lemma projectRow_pct (months : List MonthBucket) (p : Project) :
    (projectRow months p).projectedPct
      = marginPct (projectRow months p).total.revenue (projectRow months p).total.margin := rfl

lemma portfolio_pct (months : List MonthBucket) (grid : List Row) :
    (portfolioByMonth months grid).projectedPct
      = marginPct (portfolioByMonth months grid).total.revenue
          (portfolioByMonth months grid).total.margin := rfl

/-- C7: for every computed total (per-project and portfolio), the margin
percentage is `null` whenever the total revenue is nonpositive, and is
margin divided by revenue otherwise. -/
theorem claim_C7 (year : Int) (projects : List Project) :
    (∀ row ∈ projectMonthGrid (buildMonthsForYear year) projects,
      (row.total.revenue ≤ 0 → row.projectedPct = none) ∧
      (0 < row.total.revenue →
        row.projectedPct = some (row.total.margin / row.total.revenue))) ∧
    ((portfolioByMonth (buildMonthsForYear year)
        (projectMonthGrid (buildMonthsForYear year) projects)).total.revenue ≤ 0 →
      (portfolioByMonth (buildMonthsForYear year)
          (projectMonthGrid (buildMonthsForYear year) projects)).projectedPct = none) ∧
    (0 < (portfolioByMonth (buildMonthsForYear year)
        (projectMonthGrid (buildMonthsForYear year) projects)).total.revenue →
      (portfolioByMonth (buildMonthsForYear year)
          (projectMonthGrid (buildMonthsForYear year) projects)).projectedPct
        = some ((portfolioByMonth (buildMonthsForYear year)
              (projectMonthGrid (buildMonthsForYear year) projects)).total.margin
            / (portfolioByMonth (buildMonthsForYear year)
                (projectMonthGrid (buildMonthsForYear year) projects)).total.revenue)) := by
  refine ⟨?_, ?_, ?_⟩
  · intro row hrow
    obtain ⟨p, hp, rfl⟩ := List.mem_map.mp hrow
    rw [projectRow_pct]
    unfold marginPct
    constructor
    · intro h
      rw [if_pos h]
    · intro h
      rw [if_neg (not_le.mpr h)]
  · intro h
    rw [portfolio_pct]
    unfold marginPct
    rw [if_pos h]
  · intro h
    rw [portfolio_pct]
    unfold marginPct
    rw [if_neg (not_le.mpr h)]

lemma scenario_parse_start :
    parseDateInput (DateStr.ymd 2024 1 1) = some ⟨2024, 1, 1⟩ := by decide

lemma scenario_parse_end :
    parseDateInput (DateStr.ymd 2024 12 31) = some ⟨2024, 12, 31⟩ := by decide

lemma scenarioRow_total :
    (projectRow (buildMonthsForYear 2024) scenarioProject).total
      = ⟨3660000 / 7, 366000, 0, 1098000 / 7⟩ := by
  have hm := buildMonths_leap 2024 (by decide)
  rw [show jsYear 2024 = 2024 from by decide] at hm
  rw [show dayNumber ⟨2024, 1, 1⟩ = 738885 from by decide] at hm
  norm_num [projectRow, hm, scenario_parse_start, scenario_parse_end, scenarioProject,
    show dayNumber ⟨2024, 1, 1⟩ = 738885 from by decide,
    show dayNumber ⟨2024, 12, 31⟩ = 739250 from by decide,
    bucketAmount, overlapDaysInclusive, amountsFromWeekly, addAmounts, zeroAmounts,
    computeWeeklyMargin, marginPct, Amounts.ext_iff]

lemma scenarioRow_jan :
    (projectRow (buildMonthsForYear 2024) scenarioProject).byMonth.getD 0 zeroAmounts
      = ⟨310000 / 7, 31000, 0, 93000 / 7⟩ := by
  have hm := buildMonths_leap 2024 (by decide)
  rw [show jsYear 2024 = 2024 from by decide] at hm
  rw [show dayNumber ⟨2024, 1, 1⟩ = 738885 from by decide] at hm
  norm_num [projectRow, hm, scenario_parse_start, scenario_parse_end, scenarioProject,
    show dayNumber ⟨2024, 1, 1⟩ = 738885 from by decide,
    show dayNumber ⟨2024, 12, 31⟩ = 739250 from by decide,
    bucketAmount, overlapDaysInclusive, amountsFromWeekly, addAmounts, zeroAmounts,
    computeWeeklyMargin, marginPct, Amounts.ext_iff]

theorem claim_C7_witness :
    (projectRow (buildMonthsForYear 2024) scenarioProject).projectedPct
      = some ((projectRow (buildMonthsForYear 2024) scenarioProject).total.margin
          / (projectRow (buildMonthsForYear 2024) scenarioProject).total.revenue) := by
  have h := ((claim_C7 2024 [scenarioProject]).1
    (projectRow (buildMonthsForYear 2024) scenarioProject) (List.mem_singleton.mpr rfl)).2
  apply h
  rw [scenarioRow_total]
  norm_num

/-- C1 (counterexample): in the §8 scenario the full-year total margin is
1098000/7 ≈ 156857.14 (366 days in 2024, times 3000/7 per day), which is
more than 400 away from the claimed ≈ 156428.57 (the latter corresponds
to 365 days). -/
theorem claim_C1_counterexample :
    400 < |(projectRow (buildMonthsForYear 2024) scenarioProject).total.margin
        - 15642857 / 100| := by
  rw [scenarioRow_total]
  have h : (⟨3660000 / 7, 366000, 0, 1098000 / 7⟩ : Amounts).margin - 15642857 / 100
      = (300001 : ℚ) / 700 := by
    norm_num
  rw [h, abs_of_pos (by norm_num)]
  norm_num

/-- C1 (amended): for the §8 scenario at month granularity, the January
bucket has revenue 310000/7 ≈ 44285.71 and margin 93000/7 ≈ 13285.71, and
the full-year total margin is 1098000/7 = 3000 × 366/7 ≈ 156857.14. -/
theorem claim_C1 :
    ((projectRow (buildMonthsForYear 2024) scenarioProject).byMonth.getD 0 zeroAmounts).revenue
      = 310000 / 7 ∧
    |((projectRow (buildMonthsForYear 2024) scenarioProject).byMonth.getD 0 zeroAmounts).revenue
        - 4428571 / 100| ≤ 1 / 100 ∧
    ((projectRow (buildMonthsForYear 2024) scenarioProject).byMonth.getD 0 zeroAmounts).margin
      = 93000 / 7 ∧
    |((projectRow (buildMonthsForYear 2024) scenarioProject).byMonth.getD 0 zeroAmounts).margin
        - 1328571 / 100| ≤ 1 / 100 ∧
    (projectRow (buildMonthsForYear 2024) scenarioProject).total.margin = 1098000 / 7 ∧
    |(projectRow (buildMonthsForYear 2024) scenarioProject).total.margin - 15685714 / 100|
      ≤ 1 / 100 := by
  rw [scenarioRow_jan, scenarioRow_total]
  refine ⟨by norm_num, ?_, by norm_num, ?_, by norm_num, ?_⟩ <;>
    rw [abs_le] <;> constructor <;> norm_num

lemma bucketAmount_zero_inverted (s e : Int) (wr wc wa : ℚ) (b : MonthBucket) (h : e < s) :
    bucketAmount s e wr wc wa b = zeroAmounts := by
  rw [bucketAmount_eq, overlap_empty s e b.start b.endD h]
  simp [amountsFromWeekly_zero]

/-- C8: every entity gets a row; an unparseable endpoint yields the
"required" message, an inverted range the "on/before" message, otherwise
no message; a row with a message has the zero amounts in every bucket. -/
theorem claim_C8 (year : Int) (projects : List Project) (p : Project) (hp : p ∈ projects) :
    (projectMonthGrid (buildMonthsForYear year) projects).length = projects.length ∧
    ∃ row ∈ projectMonthGrid (buildMonthsForYear year) projects,
      row.project = p ∧
      ((parseDateInput p.startDate = none ∨ parseDateInput p.endDate = none) →
        row.dateError = some "Start and end dates are required.") ∧
      (∀ a b : CivilDate, parseDateInput p.startDate = some a →
        parseDateInput p.endDate = some b →
        row.dateError = if dayNumber a > dayNumber b
          then some "Start date must be on/before end date." else none) ∧
      (row.dateError ≠ none → ∀ x ∈ row.byMonth, x = zeroAmounts) := by
  refine ⟨by simp [projectMonthGrid],
    projectRow (buildMonthsForYear year) p, List.mem_map_of_mem _ hp, rfl, ?_, ?_, ?_⟩
  · intro h
    rcases h with h | h
    · simp [projectRow, h]
    · rcases hps : parseDateInput p.startDate with _ | a <;> simp [projectRow, hps, h]
  · intro a b ha hb
    simp [projectRow, ha, hb]
  · intro hne x hx
    rcases byMonth_mem (buildMonthsForYear year) p x hx with rfl | ⟨a, b, m, hm, ha, hb, rfl⟩
    · rfl
    · have hde : (projectRow (buildMonthsForYear year) p).dateError
          = if dayNumber a > dayNumber b
            then some "Start date must be on/before end date." else none := by
        simp [projectRow, ha, hb]
      rw [hde] at hne
      by_cases hab : dayNumber a > dayNumber b
      · exact bucketAmount_zero_inverted _ _ _ _ _ _ hab
      · rw [if_neg hab] at hne
        exact absurd rfl hne

theorem claim_C8_witness :
    ∃ row ∈ projectMonthGrid (buildMonthsForYear 2024) [badDateProject],
      row.project = badDateProject ∧
      row.dateError = some "Start and end dates are required." ∧
      ∀ x ∈ row.byMonth, x = zeroAmounts := by
  obtain ⟨_, row, hmem, hproj, h1, _, h3⟩ :=
    claim_C8 2024 [badDateProject] badDateProject (List.mem_singleton.mpr rfl)
  have herr := h1 (Or.inl (by decide))
  refine ⟨row, hmem, hproj, herr, ?_⟩
  apply h3
  rw [herr]
  simp

lemma parse_valid {ds : DateStr} {c : CivilDate} (h : parseDateInput ds = some c) :
    validCivil c := by
  cases ds with
  | malformed => exact Option.noConfusion h
  | ymd y m d =>
    simp only [parseDateInput] at h
    split_ifs at h with h1 h2
    all_goals first
      | exact Option.noConfusion h
      | (injection h with h
         subst h
         push_neg at h1
         exact ⟨h2.1, (by omega : (1 : Int) ≤ m), h2.2.1, (by omega : (1 : Int) ≤ d), h2.2.2⟩)

lemma parse_toISO {c : CivilDate} (hc : validCivil c) :
    parseDateInput (toISODateInput c) = some c := by
  obtain ⟨y, m, d⟩ := c
  have h1 : 100 ≤ y := hc.1
  have h2 : 1 ≤ m := hc.2.1
  have h3 : m ≤ 12 := hc.2.2.1
  have h4 : 1 ≤ d := hc.2.2.2.1
  have h5 : d ≤ daysInMonth y m := hc.2.2.2.2
  simp only [toISODateInput]
  rw [if_neg (by omega : ¬ (y < 0))]
  simp only [parseDateInput]
  rw [if_neg (by omega), if_pos ⟨h1, h3, h5⟩]

lemma valid_jan1 (year : Int) (hy : 100 ≤ year) : validCivil ⟨year, 1, 1⟩ := by
  refine ⟨hy, by norm_num, by norm_num, by norm_num, ?_⟩
  simp [daysInMonth]

lemma valid_dec31 (year : Int) (hy : 100 ≤ year) : validCivil ⟨year, 12, 31⟩ := by
  refine ⟨hy, by norm_num, by norm_num, by norm_num, ?_⟩
  simp [daysInMonth]

lemma dayNumber_year_le (year : Int) :
    dayNumber ⟨year, 1, 1⟩ ≤ dayNumber ⟨year, 12, 31⟩ := by
  rw [dayNumber_dec31]
  rcases daysInYear_cases year with h | h <;> omega

lemma clamp_core (year : Int) (hy : 100 ≤ year) (c : CivilDate) (hc : validCivil c)
    (r : CivilDate)
    (hr : r = if dayNumber c < dayNumber ⟨year, 1, 1⟩ then ⟨year, 1, 1⟩
          else if dayNumber c > dayNumber ⟨year, 12, 31⟩ then ⟨year, 12, 31⟩ else c) :
    validCivil r ∧ dayNumber ⟨year, 1, 1⟩ ≤ dayNumber r
      ∧ dayNumber r ≤ dayNumber ⟨year, 12, 31⟩ := by
  have hspan := dayNumber_year_le year
  subst hr
  split_ifs with h1 h2
  · exact ⟨valid_jan1 year hy, le_refl _, hspan⟩
  · exact ⟨valid_dec31 year hy, hspan, le_refl _⟩
  · exact ⟨hc, by omega, by omega⟩

lemma clamp_main (p : Project) (year : Int) (hy : 100 ≤ jsYear year) :
    ∃ S E : CivilDate, validCivil S ∧ validCivil E ∧
      (clampProjectDatesToYear p year).startDate = toISODateInput S ∧
      (clampProjectDatesToYear p year).endDate = toISODateInput E ∧
      dayNumber ⟨jsYear year, 1, 1⟩ ≤ dayNumber S
        ∧ dayNumber S ≤ dayNumber ⟨jsYear year, 12, 31⟩ ∧
      dayNumber ⟨jsYear year, 1, 1⟩ ≤ dayNumber E
        ∧ dayNumber E ≤ dayNumber ⟨jsYear year, 12, 31⟩ ∧
      dayNumber S ≤ dayNumber E ∧
      (parseDateInput p.startDate = none → S = ⟨jsYear year, 1, 1⟩) ∧
      (parseDateInput p.endDate = none → E = ⟨jsYear year, 12, 31⟩) := by
  have hspan := dayNumber_year_le (jsYear year)
  set A := (parseDateInput p.startDate).getD ⟨jsYear year, 1, 1⟩ with hA
  set B := (parseDateInput p.endDate).getD ⟨jsYear year, 12, 31⟩ with hB
  set CS := (if dayNumber A < dayNumber ⟨jsYear year, 1, 1⟩ then (⟨jsYear year, 1, 1⟩ : CivilDate)
      else if dayNumber A > dayNumber ⟨jsYear year, 12, 31⟩ then ⟨jsYear year, 12, 31⟩ else A)
    with hCS
  set CE := (if dayNumber B < dayNumber ⟨jsYear year, 1, 1⟩ then (⟨jsYear year, 1, 1⟩ : CivilDate)
      else if dayNumber B > dayNumber ⟨jsYear year, 12, 31⟩ then ⟨jsYear year, 12, 31⟩ else B)
    with hCE
  set FE := (if dayNumber CE < dayNumber CS then CS else CE) with hFE
  have hstart : (clampProjectDatesToYear p year).startDate = toISODateInput CS := rfl
  have hend : (clampProjectDatesToYear p year).endDate = toISODateInput FE := rfl
  have hAv : validCivil A ∧ (parseDateInput p.startDate = none → A = ⟨jsYear year, 1, 1⟩) := by
    rcases hps : parseDateInput p.startDate with _ | a
    · rw [hA, hps]
      exact ⟨valid_jan1 (jsYear year) hy, fun _ => rfl⟩
    · rw [hA, hps]
      exact ⟨parse_valid hps, fun hcontra => Option.noConfusion hcontra⟩
  have hBv : validCivil B ∧ (parseDateInput p.endDate = none → B = ⟨jsYear year, 12, 31⟩) := by
    rcases hpe : parseDateInput p.endDate with _ | b
    · rw [hB, hpe]
      exact ⟨valid_dec31 (jsYear year) hy, fun _ => rfl⟩
    · rw [hB, hpe]
      exact ⟨parse_valid hpe, fun hcontra => Option.noConfusion hcontra⟩
  have hS := clamp_core (jsYear year) hy A hAv.1 CS hCS
  have hE0 := clamp_core (jsYear year) hy B hBv.1 CE hCE
  have hFEv : validCivil FE ∧ dayNumber ⟨jsYear year, 1, 1⟩ ≤ dayNumber FE
      ∧ dayNumber FE ≤ dayNumber ⟨jsYear year, 12, 31⟩ ∧ dayNumber CS ≤ dayNumber FE := by
    rw [hFE]
    split_ifs with h
    · exact ⟨hS.1, hS.2.1, hS.2.2, le_refl _⟩
    · exact ⟨hE0.1, hE0.2.1, hE0.2.2, by omega⟩
  refine ⟨CS, FE, hS.1, hFEv.1, hstart, hend, hS.2.1, hS.2.2, hFEv.2.1, hFEv.2.2.1,
    hFEv.2.2.2, ?_, ?_⟩
  · intro h
    rw [hCS, hAv.2 h, if_neg (lt_irrefl _), if_neg (not_lt.mpr hspan)]
  · intro h
    rw [hFE, hCE, hBv.2 h, if_neg (not_lt.mpr hspan), if_neg (lt_irrefl _),
      if_neg (not_lt.mpr hS.2.2)]

/-- C10 (counterexample): for target year 50 the JS `Date` constructor
builds `yearStart`/`yearEnd` in 1950 (years 0..99 map to 1900+year), so
the program clamps the project's 2024 dates to December 31, **1950** and
emits "1950-12-31".  That string parses successfully, but the resulting
date lies after December 31 of year 50 — the clamped range does not lie
within January 1 through December 31 of the target year, refuting the
claim as stated for that year. -/
theorem claim_C10_counterexample :
    parseDateInput ((clampProjectDatesToYear projectC10 50).startDate)
        = some ⟨1950, 12, 31⟩ ∧
    parseDateInput ((clampProjectDatesToYear projectC10 50).endDate)
        = some ⟨1950, 12, 31⟩ ∧
    dayNumber ⟨50, 12, 31⟩ < dayNumber ⟨1950, 12, 31⟩ := by
  refine ⟨by decide, by decide, by decide⟩

/-- C10 (amended): for every project and every target year of at least
100, the clamped project dates parse, lie within January 1 through
December 31 of the target year (in date order), and satisfy start ≤ end;
an unparseable start date is replaced by January 1 and an unparseable end
date by December 31 of the target year. -/
theorem claim_C10 (p : Project) (year : Int) (hy : 100 ≤ year) :
    ∃ s e : CivilDate,
      parseDateInput ((clampProjectDatesToYear p year).startDate) = some s ∧
      parseDateInput ((clampProjectDatesToYear p year).endDate) = some e ∧
      dayNumber ⟨year, 1, 1⟩ ≤ dayNumber s ∧ dayNumber s ≤ dayNumber ⟨year, 12, 31⟩ ∧
      dayNumber ⟨year, 1, 1⟩ ≤ dayNumber e ∧ dayNumber e ≤ dayNumber ⟨year, 12, 31⟩ ∧
      dayNumber s ≤ dayNumber e ∧
      (parseDateInput p.startDate = none →
        (clampProjectDatesToYear p year).startDate = DateStr.ymd year 1 1) ∧
      (parseDateInput p.endDate = none →
        (clampProjectDatesToYear p year).endDate = DateStr.ymd year 12 31) := by
  have hjs : jsYear year = year := by
    unfold jsYear
    rw [if_neg (by omega)]
  obtain ⟨S, E, hSv, hEv, hstart, hend, h1, h2, h3, h4, h5, hS0, hE0⟩ :=
    clamp_main p year (by rw [hjs]; exact hy)
  rw [hjs] at h1 h2 h3 h4 hS0 hE0
  refine ⟨S, E, ?_, ?_, h1, h2, h3, h4, h5, ?_, ?_⟩
  · rw [hstart]
    exact parse_toISO hSv
  · rw [hend]
    exact parse_toISO hEv
  · intro h
    rw [hstart, hS0 h]
    simp only [toISODateInput]
    rw [if_neg (by omega : ¬ (year < 0))]
  · intro h
    rw [hend, hE0 h]
    simp only [toISODateInput]
    rw [if_neg (by omega : ¬ (year < 0))]

theorem claim_C10_witness :
    ∃ s e : CivilDate,
      parseDateInput ((clampProjectDatesToYear badDateProject 2024).startDate) = some s ∧
      parseDateInput ((clampProjectDatesToYear badDateProject 2024).endDate) = some e ∧
      dayNumber ⟨2024, 1, 1⟩ ≤ dayNumber s ∧ dayNumber s ≤ dayNumber ⟨2024, 12, 31⟩ ∧
      dayNumber ⟨2024, 1, 1⟩ ≤ dayNumber e ∧ dayNumber e ≤ dayNumber ⟨2024, 12, 31⟩ ∧
      dayNumber s ≤ dayNumber e ∧
      (parseDateInput badDateProject.startDate = none →
        (clampProjectDatesToYear badDateProject 2024).startDate = DateStr.ymd 2024 1 1) ∧
      (parseDateInput badDateProject.endDate = none →
        (clampProjectDatesToYear badDateProject 2024).endDate = DateStr.ymd 2024 12 31) :=
  claim_C10 badDateProject 2024 (by norm_num)

end Proforma
